import Mathlib

/-!
Shallow embedding of the BERDL access-request JupyterLab extension
(TypeScript sources: `src/api.ts`, `src/AccessRequestModal.tsx`,
`src/CredentialModal.tsx`) and proofs about its spec claims.

The embedding models:
* the transport client's non-2xx error-message construction (`api.ts`);
* the access-request modal's state record, its load / validate / submit
  transitions, and the request body it builds;
* the credential modal's state record, its render branches, button
  `disabled` expressions, and the copy / download handlers, including a
  simulated-time model of the 2000 ms "copied" acknowledgment timeout.

JavaScript truthiness on the string and optional values the code tests is
made explicit (`jsTruthyStr`, `jsTruthyOptStr`, `jsTruthyOptBool`).
-/

namespace Berdl

/-- JS truthiness of a string: falsy exactly when it is the empty string. -/
def jsTruthyStr (s : String) : Bool := s ≠ ""

/-- JS truthiness of a nullable string (`null`/`undefined` and `""` are falsy). -/
def jsTruthyOptStr : Option String → Bool
  | none => false
  | some s => jsTruthyStr s

/-- JS truthiness of an optional boolean (`undefined` is falsy). -/
def jsTruthyOptBool : Option Bool → Bool
  | none => false
  | some b => b

/-- JS `x || fallback` where `x` is the nullable-string `error` field of a
parsed JSON body: the fallback is used when the field is absent or falsy. -/
def jsOrStr (x : Option String) (fallback : String) : String :=
  match x with
  | some s => if s = "" then fallback else s
  | none => fallback

/-! ## Transport client (`src/api.ts`)

An HTTP response is modelled by its status code and the outcome of
`response.json()` projected onto the `error` field the client reads:
`Except.error m` models a body that is not parseable JSON (the rejection
message `m` of `response.json()` propagates out of the `await`),
`Except.ok f` models a parseable body whose `error` field is `f`
(`none` when absent or not a string). -/

structure HttpResponse where
  status : Nat
  jsonErrorField : Except String (Option String)

/-- `response.ok` of the fetch API: status in the 2xx range. -/
def HttpResponse.respOk (r : HttpResponse) : Bool :=
  200 ≤ r.status && r.status < 300

/-- Error message thrown by `fetchGroups` (`api.ts` lines 51-54) for a given
response; `none` when the response is 2xx and no error is thrown. -/
def fetchGroupsError (r : HttpResponse) : Option String :=
  if r.respOk then none
  else
    match r.jsonErrorField with
    | .error parseMsg => some parseMsg
    | .ok f => some (jsOrStr f ("Request failed: " ++ toString r.status))

/-- Error message thrown by `submitAccessRequest` (`api.ts` lines 82-85). -/
def submitAccessRequestError (r : HttpResponse) : Option String :=
  if r.respOk then none
  else
    match r.jsonErrorField with
    | .error parseMsg => some parseMsg
    | .ok f => some (jsOrStr f ("Request failed: " ++ toString r.status))

/-- Error message thrown by `getCredentialInfo` (`api.ts` lines 116-119). -/
def getCredentialInfoError (r : HttpResponse) : Option String :=
  if r.respOk then none
  else
    match r.jsonErrorField with
    | .error parseMsg => some parseMsg
    | .ok f => some (jsOrStr f "Failed to get credential info")

/-- Error message thrown by `getCredentialsAsText` (`api.ts` lines 153-156). -/
def getCredentialsAsTextError (r : HttpResponse) : Option String :=
  if r.respOk then none
  else
    match r.jsonErrorField with
    | .error parseMsg => some parseMsg
    | .ok f => some (jsOrStr f "Failed to get credentials")

/-! ## Access-request modal (`src/AccessRequestModal.tsx`)

Two revisions of this component exist in the repository; the newer one
(robust error extraction, distinct empty-groups validation message,
tenant-labelled UI) is embedded as the authoritative one, the older one's
validation branch is embedded separately as `handleSubmitValidateLegacy`. -/

/-- The `permission` union type `'read_only' | 'read_write'`. -/
inductive Permission where
  | read_only : Permission
  | read_write : Permission
deriving DecidableEq, Repr

/-- Response body of the groups endpoint (`GroupsResponse` in `api.ts`). -/
structure GroupsResponse where
  available_groups : List String
  my_groups : List String
deriving DecidableEq, Repr

/-- Request body of the submit endpoint (`SubmitRequest` in `api.ts`);
`justification` is optional and omitted from the JSON when `none`. -/
structure SubmitRequest where
  tenant_name : String
  permission : Permission
  justification : Option String
deriving DecidableEq, Repr

/-- The `ModalState` record of `AccessRequestModal`. -/
structure ARState where
  loading : Bool
  submitting : Bool
  error : Option String
  success : Option String
  availableGroups : List String
  myGroups : List String
  selectedGroup : String
  permission : Permission
  justification : String
deriving DecidableEq, Repr

/-- Initial state passed to `useState` in `AccessRequestModal`. -/
def arInit : ARState :=
  { loading := true
    submitting := false
    error := none
    success := none
    availableGroups := []
    myGroups := []
    selectedGroup := ""
    permission := .read_only
    justification := "" }

/-- State update applied when the mount-time `fetchGroups` resolves
(`.then` branch of the `useEffect`): `selectedGroup` becomes
`data.available_groups[0] || ''`. -/
def arLoadSuccess (s : ARState) (d : GroupsResponse) : ARState :=
  { s with
    loading := false
    availableGroups := d.available_groups
    myGroups := d.my_groups
    selectedGroup :=
      match d.available_groups with
      | [] => ""
      | g :: _ => if g = "" then "" else g }

/-- State update applied when the mount-time `fetchGroups` rejects
(`.catch` branch of the `useEffect`). -/
def arLoadFailure (s : ARState) (msg : String) : ARState :=
  { s with loading := false, error := some ("Failed to load groups: " ++ msg) }

/-- Synchronous outcome of `handleSubmit` before any network activity:
either an early return with a validation message (no call issued) or the
`submitAccessRequest` call with the request body built from state. -/
inductive SubmitStep where
  | validationError : String → SubmitStep
  | call : SubmitRequest → SubmitStep
deriving DecidableEq, Repr

/-- The validation-and-build prefix of `handleSubmit` (newer revision):
`if (!state.selectedGroup)` distinguishes the empty-`availableGroups` case,
and the request body uses `state.justification || undefined`. -/
def handleSubmitStep (s : ARState) : SubmitStep :=
  if s.selectedGroup = "" then
    if s.availableGroups.length = 0 then
      .validationError "No groups available to request access to"
    else
      .validationError "Please select a group"
  else
    .call
      { tenant_name := s.selectedGroup
        permission := s.permission
        justification :=
          if s.justification = "" then none else some s.justification }

/-- The validation branch of the older revision's `handleSubmit`, which
reports the same message whether or not groups are available. -/
def handleSubmitValidateLegacy (s : ARState) : SubmitStep :=
  if s.selectedGroup = "" then
    .validationError "Please select a group"
  else
    .call
      { tenant_name := s.selectedGroup
        permission := s.permission
        justification :=
          if s.justification = "" then none else some s.justification }

/-- State update of the validation early-return branch of `handleSubmit`. -/
def arValidationFail (s : ARState) (msg : String) : ARState :=
  { s with error := some msg }

/-- State update issued just before the `submitAccessRequest` call. -/
def arSubmitStart (s : ARState) : ARState :=
  { s with submitting := true, error := none }

/-- State update applied when `submitAccessRequest` resolves. -/
def arSubmitSuccess (s : ARState) (message : String) : ARState :=
  { s with submitting := false, success := some message }

/-- State update applied when `submitAccessRequest` rejects: the `catch`
branch clears `submitting` and prefixes the error message. -/
def arSubmitFailure (s : ARState) (errMsg : String) : ARState :=
  { s with
    submitting := false
    error := some ("Failed to submit request: " ++ errMsg) }

/-- `disabled` expression of the Submit button:
`state.submitting || !state.selectedGroup`. -/
def arSubmitDisabled (s : ARState) : Bool :=
  s.submitting || !(jsTruthyStr s.selectedGroup)

/-- The three render branches of `AccessRequestModal`:
`state.loading ? … : state.success ? … : <form>`. -/
inductive ARBranch where
  | loadingView : ARBranch
  | successView : ARBranch
  | formView : ARBranch
deriving DecidableEq, Repr

/-- Which branch the component renders for a given state. -/
def arBranch (s : ARState) : ARBranch :=
  if s.loading then .loadingView
  else if jsTruthyOptStr s.success then .successView
  else .formView

/-- Events that drive the access-request modal state between renders
(user input handlers and promise settlements). -/
inductive AREvent where
  | loadSuccess : GroupsResponse → AREvent
  | loadFailure : String → AREvent
  | selectGroup : String → AREvent
  | setPermission : Permission → AREvent
  | setJustification : String → AREvent
  | validationFail : String → AREvent
  | submitStart : AREvent
  | submitSuccess : String → AREvent
  | submitFailure : String → AREvent
deriving DecidableEq, Repr

/-- Whether an event is the permission radio-button `onChange` handler. -/
def AREvent.isSetPermission : AREvent → Bool
  | .setPermission _ => true
  | _ => false

/-- One state-update step of the modal; the `selectGroup`,
`setPermission` and `setJustification` cases are the `onChange` handlers
of the select, radio and textarea controls. -/
def arStep (s : ARState) : AREvent → ARState
  | .loadSuccess d => arLoadSuccess s d
  | .loadFailure m => arLoadFailure s m
  | .selectGroup g => { s with selectedGroup := g }
  | .setPermission p => { s with permission := p }
  | .setJustification j => { s with justification := j }
  | .validationFail m => arValidationFail s m
  | .submitStart => arSubmitStart s
  | .submitSuccess m => arSubmitSuccess s m
  | .submitFailure m => arSubmitFailure s m

/-- Running a sequence of events from a state. -/
def arRun (s : ARState) (es : List AREvent) : ARState :=
  es.foldl arStep s

/-! ## Credential modal (`src/CredentialModal.tsx`) -/

/-- Response body of the credentials-info endpoint (`CredentialInfo` in
`api.ts`); `local_mode` is optional. -/
structure CredentialInfo where
  username : String
  hub_url : String
  cookies_valid : Bool
  local_mode : Option Bool
  missing_cookies : List String
deriving DecidableEq, Repr

/-- The five `useState` hooks of `CredentialModal`. -/
structure CredState where
  info : Option CredentialInfo
  loading : Bool
  error : Option String
  copied : Bool
  downloading : Bool
deriving DecidableEq, Repr

/-- Initial hook values: `info = null`, `loading = true`, `error = null`,
`copied = false`, `downloading = false`. -/
def credInit : CredState :=
  { info := none, loading := true, error := none
    copied := false, downloading := false }

/-- Synchronous prefix of `loadInfo`: `setLoading(true); setError(null)`. -/
def credLoadStart (s : CredState) : CredState :=
  { s with loading := true, error := none }

/-- Settlement of `loadInfo` when `getCredentialInfo` resolves:
`setInfo(data)` then the `finally` block's `setLoading(false)`. -/
def credLoadSuccess (s : CredState) (d : CredentialInfo) : CredState :=
  { s with info := some d, loading := false }

/-- Settlement of `loadInfo` when `getCredentialInfo` rejects:
`setError(msg)` then `setLoading(false)`. -/
def credLoadFailure (s : CredState) (msg : String) : CredState :=
  { s with error := some msg, loading := false }

/-- Derived readiness of a loaded status:
`info.cookies_valid || info.local_mode` (evaluated in the branch where
`info` is non-null). -/
def isReady (info : CredentialInfo) : Bool :=
  info.cookies_valid || jsTruthyOptBool info.local_mode

/-- `disabled` expression of the Copy-to-Clipboard button for a loaded
status: `!isReady && !info.local_mode` (note: no in-flight term). -/
def copyDisabledFor (info : CredentialInfo) : Bool :=
  (!isReady info) && (!jsTruthyOptBool info.local_mode)

/-- `disabled` expression of the Download button for a loaded status:
`(!isReady && !info.local_mode) || downloading`. -/
def downloadDisabledFor (info : CredentialInfo) (downloading : Bool) : Bool :=
  ((!isReady info) && (!jsTruthyOptBool info.local_mode)) || downloading

/-- The four render branches of `CredentialModal`'s content area:
`loading ? … : error ? … : info ? … : null`. -/
inductive CredBranch where
  | loadingView : CredBranch
  | errorView : CredBranch
  | readyView : CredBranch
  | emptyView : CredBranch
deriving DecidableEq, Repr

/-- Which branch the component renders for a given state. -/
def credBranch (s : CredState) : CredBranch :=
  if s.loading then .loadingView
  else if jsTruthyOptStr s.error then .errorView
  else if s.info.isSome then .readyView
  else .emptyView

/-- Synchronous prefix of `handleDownload` before the try block's DOM
work: `setDownloading(true)`. -/
def downloadStart (s : CredState) : CredState :=
  { s with downloading := true }

/-- The `catch` branch of `handleDownload`: `setError('Failed to initiate
download')`. -/
def downloadFailure (s : CredState) : CredState :=
  { s with error := some "Failed to initiate download" }

/-- The `finally` branch of `handleDownload`: `setDownloading(false)`. -/
def downloadFinish (s : CredState) : CredState :=
  { s with downloading := false }

/-- Synchronous prefix of `handleCopy` before its first `await`: the
function body performs no state update before the fetch, so the state is
unchanged while the copy call is in flight. -/
def copyStart (s : CredState) : CredState := s

/-- The `catch` branch of `handleCopy`: `setError('Failed to copy to
clipboard')`. -/
def copyFailure (s : CredState) : CredState :=
  { s with error := some "Failed to copy to clipboard" }

/-- Clicking the Copy button: the click dispatches `handleCopy` (issuing
the `getCredentialsAsText` call) exactly when the button is rendered
(ready branch) and not disabled; returns the post-click state and whether
a call was issued. -/
def copyClick (s : CredState) : CredState × Bool :=
  match s.info with
  | none => (s, false)
  | some info =>
      if credBranch s = CredBranch.readyView ∧ copyDisabledFor info = false then
        (copyStart s, true)
      else
        (s, false)

/-- Clicking the Download button, analogously to `copyClick`. -/
def downloadClick (s : CredState) : CredState × Bool :=
  match s.info with
  | none => (s, false)
  | some info =>
      if credBranch s = CredBranch.readyView ∧
          downloadDisabledFor info s.downloading = false then
        (downloadStart s, true)
      else
        (s, false)

/-! ### Simulated time for the copied acknowledgment

`handleCopy`'s success path runs `setCopied(true);
setTimeout(() => setCopied(false), 2000)`. The single-threaded event
loop is modelled by the `copied` flag together with the multiset of
pending timeout fire times; observing the state at a later instant fires
every timeout that is due by then. -/

/-- The `copied` flag with its pending `setCopied(false)` timeouts. -/
structure CopiedTimeline where
  copied : Bool
  timers : List Nat
deriving DecidableEq, Repr

/-- The timeline before any copy has succeeded. -/
def copiedTimelineInit : CopiedTimeline :=
  { copied := false, timers := [] }

/-- Success path of `handleCopy` executed at instant `t`:
`setCopied(true)` and schedule a `setCopied(false)` callback at
`t + 2000`. -/
def copySuccessAt (t : Nat) (s : CopiedTimeline) : CopiedTimeline :=
  { copied := true, timers := s.timers ++ [t + 2000] }

/-- Observe the timeline at instant `u`: every pending timeout due by `u`
has fired, each setting `copied` to `false`. -/
def observeAt (u : Nat) (s : CopiedTimeline) : CopiedTimeline :=
  { copied := if s.timers.any (fun ft => ft ≤ u) then false else s.copied
    timers := s.timers.filter (fun ft => u < ft) }

/-! ## Helper lemmas -/

/-- `x || fallback` yields the field itself when the field is truthy. -/
theorem jsOrStr_of_truthy (e : String) (fb : String) (h : e ≠ "") :
    jsOrStr (some e) fb = e := by
  simp [jsOrStr, h]

/-- `x || fallback` yields the fallback when the field is falsy
(absent or the empty string). -/
theorem jsOrStr_of_falsy (f : Option String) (fb : String)
    (h : jsTruthyOptStr f = false) : jsOrStr f fb = fb := by
  cases f with
  | none => rfl
  | some s =>
      simp [jsTruthyOptStr, jsTruthyStr] at h
      simp [jsOrStr, h]

/-- Characterization of the ready render branch of `CredentialModal`. -/
theorem credBranch_ready_iff (s : CredState) :
    credBranch s = .readyView ↔
      s.loading = false ∧ jsTruthyOptStr s.error = false ∧
        s.info.isSome = true := by
  cases hsl : s.loading <;> cases hse : jsTruthyOptStr s.error <;>
    cases hsi : s.info.isSome <;>
      simp [credBranch, hsl, hse, hsi]

/-- A Download click outside the ready render branch never issues a call. -/
theorem downloadClick_not_ready (s : CredState)
    (h : credBranch s ≠ .readyView) : (downloadClick s).2 = false := by
  cases hinfo : s.info with
  | none => simp only [downloadClick, hinfo]
  | some info =>
      have hnc : ¬(credBranch s = CredBranch.readyView ∧
          downloadDisabledFor info s.downloading = false) :=
        fun hc => h hc.1
      simp only [downloadClick, hinfo, if_neg hnc]

/-- A Copy click outside the ready render branch never issues a call. -/
theorem copyClick_not_ready (s : CredState)
    (h : credBranch s ≠ .readyView) : (copyClick s).2 = false := by
  cases hinfo : s.info with
  | none => simp only [copyClick, hinfo]
  | some info =>
      have hnc : ¬(credBranch s = CredBranch.readyView ∧
          copyDisabledFor info = false) :=
        fun hc => h hc.1
      simp only [copyClick, hinfo, if_neg hnc]

/-- A `handleSubmitStep` result that issues the call carries the state's
permission in the request body. -/
theorem handleSubmitStep_call_permission (s : ARState) (req : SubmitRequest)
    (h : handleSubmitStep s = .call req) : req.permission = s.permission := by
  by_cases hsel : s.selectedGroup = ""
  · by_cases hag : s.availableGroups.length = 0 <;>
      simp [handleSubmitStep, hsel, hag] at h
  · simp [handleSubmitStep, hsel] at h
    rw [← h]

/-- Events other than the permission radio handler never change the
`permission` field. -/
theorem arRun_permission_invariant (es : List AREvent) (s : ARState)
    (h : ∀ e ∈ es, e.isSetPermission = false) :
    (arRun s es).permission = s.permission := by
  induction es generalizing s with
  | nil => rfl
  | cons e tl ih =>
      have he : e.isSetPermission = false := h e (by simp)
      have htl : ∀ e' ∈ tl, e'.isSetPermission = false :=
        fun e' hm => h e' (by simp [hm])
      have hstep : (arStep s e).permission = s.permission := by
        cases e with
        | setPermission p => simp [AREvent.isSetPermission] at he
        | loadSuccess d => rfl
        | loadFailure m => rfl
        | selectGroup g => rfl
        | setJustification j => rfl
        | validationFail m => rfl
        | submitStart => rfl
        | submitSuccess m => rfl
        | submitFailure m => rfl
      calc (arRun s (e :: tl)).permission
          = (arRun (arStep s e) tl).permission := rfl
        _ = (arStep s e).permission := ih (arStep s e) htl
        _ = s.permission := hstep

/-! ## Claims -/

/-- C1 (counterexample): the claim that every endpoint falls back to
"Request failed: &lt;status&gt;" fails on the code. On a 500 response with a
parseable body lacking an `error` field, `getCredentialInfo` throws
"Failed to get credential info", not "Request failed: 500"; and on the
groups endpoint an unparsable body makes `response.json()` reject, so the
parse error's own message propagates instead of any fallback. -/
theorem C1_transport_fallback_counterexample :
    getCredentialInfoError ⟨500, .ok none⟩ =
        some "Failed to get credential info" ∧
      "Failed to get credential info" ≠ "Request failed: 500" ∧
      fetchGroupsError ⟨500, .error "Unexpected token"⟩ =
        some "Unexpected token" := by
  decide

/-- C1 (amended): for every non-2xx response whose body parses as JSON, the
thrown message is the truthy `error` field; when that field is absent or
falsy, `fetchGroups` and `submitAccessRequest` fall back to
"Request failed: &lt;status&gt;" while `getCredentialInfo` and
`getCredentialsAsText` fall back to the fixed strings "Failed to get
credential info" and "Failed to get credentials"; when the body is not
parseable JSON, the `response.json()` rejection message itself propagates
on all four endpoints. -/
theorem C1_transport_error_messages (r : HttpResponse)
    (h : r.respOk = false) :
    (∀ e, r.jsonErrorField = .ok (some e) → e ≠ "" →
      fetchGroupsError r = some e ∧
      submitAccessRequestError r = some e ∧
      getCredentialInfoError r = some e ∧
      getCredentialsAsTextError r = some e) ∧
    (∀ f, r.jsonErrorField = .ok f → jsTruthyOptStr f = false →
      fetchGroupsError r = some ("Request failed: " ++ toString r.status) ∧
      submitAccessRequestError r =
        some ("Request failed: " ++ toString r.status) ∧
      getCredentialInfoError r = some "Failed to get credential info" ∧
      getCredentialsAsTextError r = some "Failed to get credentials") ∧
    (∀ m, r.jsonErrorField = .error m →
      fetchGroupsError r = some m ∧
      submitAccessRequestError r = some m ∧
      getCredentialInfoError r = some m ∧
      getCredentialsAsTextError r = some m) := by
  refine ⟨?_, ?_, ?_⟩
  · intro e hf he
    simp [fetchGroupsError, submitAccessRequestError, getCredentialInfoError,
      getCredentialsAsTextError, h, hf, jsOrStr_of_truthy e _ he]
  · intro f hf hfalsy
    simp [fetchGroupsError, submitAccessRequestError, getCredentialInfoError,
      getCredentialsAsTextError, h, hf, jsOrStr_of_falsy f _ hfalsy]
  · intro m hm
    simp [fetchGroupsError, submitAccessRequestError, getCredentialInfoError,
      getCredentialsAsTextError, h, hm]

/-- Witness for `C1_transport_error_messages` at a concrete 500 response
whose body carries an `error` field. -/
theorem C1_transport_error_messages_witness :
    (⟨500, .ok (some "bad tenant")⟩ : HttpResponse).respOk = false ∧
    fetchGroupsError ⟨500, .ok (some "bad tenant")⟩ = some "bad tenant" := by
  refine ⟨by decide, ?_⟩
  exact ((C1_transport_error_messages ⟨500, .ok (some "bad tenant")⟩
    (by decide)).1 "bad tenant" rfl (by decide)).1

/-- C2: for every loaded credential status, `isReady` holds exactly when
`cookies_valid` is true or `local_mode` is `true`, and (with no download
in flight) the Download and Copy-to-Clipboard buttons' `disabled`
expressions are false exactly when `isReady` is true. -/
theorem C2_isReady_gates_exports (info : CredentialInfo) :
    (isReady info = true ↔
      (info.cookies_valid = true ∨ info.local_mode = some true)) ∧
    (copyDisabledFor info = false ↔ isReady info = true) ∧
    (downloadDisabledFor info false = false ↔ isReady info = true) := by
  obtain ⟨u, hu, cv, lm, mc⟩ := info
  rcases lm with _ | b
  · cases cv <;>
      simp [isReady, copyDisabledFor, downloadDisabledFor, jsTruthyOptBool]
  · cases cv <;> cases b <;>
      simp [isReady, copyDisabledFor, downloadDisabledFor, jsTruthyOptBool]

/-- C3: submitting with no group selected never issues the submit call;
when `availableGroups` is empty the validation message is
"No groups available to request access to", otherwise it is
"Please select a group", and the two messages differ. -/
theorem C3_validation_distinguishes_empty_groups (s : ARState)
    (h : s.selectedGroup = "") :
    (∀ req, handleSubmitStep s ≠ .call req) ∧
    (s.availableGroups = [] →
      handleSubmitStep s =
        .validationError "No groups available to request access to") ∧
    (s.availableGroups ≠ [] →
      handleSubmitStep s = .validationError "Please select a group") ∧
    "No groups available to request access to" ≠ "Please select a group" := by
  refine ⟨?_, ?_, ?_, by decide⟩
  · intro req
    cases hag : s.availableGroups with
    | nil => simp [handleSubmitStep, h, hag]
    | cons a l => simp [handleSubmitStep, h, hag]
  · intro hag
    simp [handleSubmitStep, h, hag]
  · intro hag
    cases hag2 : s.availableGroups with
    | nil => exact absurd hag2 hag
    | cons a l => simp [handleSubmitStep, h, hag2]

/-- Witness for `C3_validation_distinguishes_empty_groups` at the initial
state, where no group is selected and no groups are available. -/
theorem C3_validation_witness :
    arInit.selectedGroup = "" ∧
    handleSubmitStep arInit =
      .validationError "No groups available to request access to" :=
  ⟨rfl, (C3_validation_distinguishes_empty_groups arInit rfl).2.1 rfl⟩

/-- C4 (counterexample): the claim that every export action carries its own
in-flight flag fails for Copy-to-Clipboard. From a freshly loaded ready
state, a Copy click issues the call without changing any state, and a
second Copy click on the resulting state issues a second call while the
first is still in flight — its trigger was never disabled. -/
theorem C4_copy_inflight_counterexample :
    (copyClick (credLoadSuccess credInit
        ⟨"user", "https://hub", true, none, []⟩)).2 = true ∧
    (copyClick (copyClick (credLoadSuccess credInit
        ⟨"user", "https://hub", true, none, []⟩)).1).2 = true := by
  decide

/-- C4 (amended): the Submit trigger is disabled from the moment the
submit call is issued (`submitting` is set first), and Download carries
the in-flight flag `downloading` that disables its trigger, so no second
download call can be issued while one is in flight; Copy-to-Clipboard,
however, carries no in-flight flag — issuing a copy leaves the state
unchanged, so its trigger stays enabled while the copy is in flight. -/
theorem C4_inflight_flags (s : ARState) (c c' : CredState) :
    arSubmitDisabled (arSubmitStart s) = true ∧
    ((downloadClick c).2 = true →
      (downloadClick c).1.downloading = true ∧
      (downloadClick (downloadClick c).1).2 = false) ∧
    copyStart c' = c' := by
  refine ⟨?_, ?_, rfl⟩
  · simp [arSubmitDisabled, arSubmitStart]
  · intro h
    cases hinfo : c.info with
    | none => simp [downloadClick, hinfo] at h
    | some info =>
        by_cases hcond : credBranch c = CredBranch.readyView ∧
            downloadDisabledFor info c.downloading = false
        · have hclick : downloadClick c = (downloadStart c, true) := by
            simp only [downloadClick, hinfo, if_pos hcond]
          rw [hclick]
          refine ⟨rfl, ?_⟩
          have hni : (downloadStart c).info = some info := by
            simp [downloadStart, hinfo]
          have hnd : downloadDisabledFor info (downloadStart c).downloading =
              true := by
            simp [downloadStart, downloadDisabledFor]
          have hnc : ¬(credBranch (downloadStart c) = CredBranch.readyView ∧
              downloadDisabledFor info (downloadStart c).downloading = false) := by
            intro hc
            rw [hnd] at hc
            exact absurd hc.2 (by decide)
          simp only [downloadClick, hni, if_neg hnc]
        · simp only [downloadClick, hinfo, if_neg hcond] at h
          exact absurd h (by decide)

/-- Witness for `C4_inflight_flags` at a freshly loaded ready state,
discharging the in-flight implication with a concrete first click. -/
theorem C4_inflight_flags_witness :
    (downloadClick (credLoadSuccess credInit
        ⟨"user", "https://hub", true, none, []⟩)).1.downloading = true ∧
    (downloadClick (downloadClick (credLoadSuccess credInit
        ⟨"user", "https://hub", true, none, []⟩)).1).2 = false :=
  (C4_inflight_flags arInit
    (credLoadSuccess credInit ⟨"user", "https://hub", true, none, []⟩)
    credInit).2.1 (by decide)

/-- C5 (counterexample): a failed copy does not leave Download available.
From a freshly loaded ready state, the copy failure handler sets the
shared error field, the modal switches to the error view, and a Download
click then issues no call. -/
theorem C5_shared_error_counterexample :
    credBranch (copyFailure (credLoadSuccess credInit
        ⟨"user", "https://hub", true, none, []⟩)) = .errorView ∧
    (downloadClick (copyFailure (credLoadSuccess credInit
        ⟨"user", "https://hub", true, none, []⟩))).2 = false := by
  decide

/-- C5 (amended): from the ready view, a failed copy sets the shared
`error` field to "Failed to copy to clipboard", which switches the modal
to the error view where a Download click issues no call; symmetrically a
failed download (after its `finally` clears `downloading`) sets the same
field to "Failed to initiate download" and a Copy click issues no call.
The two failures are distinguished only by their message text in the one
error field also used for load failures. -/
theorem C5_failure_shared_error (s : CredState)
    (h : credBranch s = .readyView) :
    (copyFailure s).error = some "Failed to copy to clipboard" ∧
    credBranch (copyFailure s) = .errorView ∧
    (downloadClick (copyFailure s)).2 = false ∧
    (downloadFinish (downloadFailure s)).error =
      some "Failed to initiate download" ∧
    credBranch (downloadFinish (downloadFailure s)) = .errorView ∧
    (copyClick (downloadFinish (downloadFailure s))).2 = false ∧
    "Failed to copy to clipboard" ≠ "Failed to initiate download" := by
  obtain ⟨hl, he, hi⟩ := (credBranch_ready_iff s).mp h
  have hcopyMsg : jsTruthyOptStr (some "Failed to copy to clipboard") = true := by
    decide
  have hdlMsg : jsTruthyOptStr (some "Failed to initiate download") = true := by
    decide
  have hb1 : credBranch (copyFailure s) = .errorView := by
    simp [credBranch, copyFailure, hl, hcopyMsg]
  have hb2 : credBranch (downloadFinish (downloadFailure s)) = .errorView := by
    simp [credBranch, downloadFinish, downloadFailure, hl, hdlMsg]
  refine ⟨rfl, hb1, ?_, rfl, hb2, ?_, by decide⟩
  · exact downloadClick_not_ready (copyFailure s)
      (by rw [hb1]; exact (by decide : CredBranch.errorView ≠ CredBranch.readyView))
  · exact copyClick_not_ready (downloadFinish (downloadFailure s))
      (by rw [hb2]; exact (by decide : CredBranch.errorView ≠ CredBranch.readyView))

/-- Witness for `C5_failure_shared_error` at a freshly loaded ready
state. -/
theorem C5_failure_shared_error_witness :
    credBranch (credLoadSuccess credInit
        ⟨"user", "https://hub", true, none, []⟩) = .readyView ∧
    (copyFailure (credLoadSuccess credInit
        ⟨"user", "https://hub", true, none, []⟩)).error =
      some "Failed to copy to clipboard" :=
  ⟨by decide,
    (C5_failure_shared_error
      (credLoadSuccess credInit ⟨"user", "https://hub", true, none, []⟩)
      (by decide)).1⟩

/-- C6: after the groups fetch resolves, the default selection is the
first element of `available_groups` when that list is non-empty, and the
empty string when it is empty. -/
theorem C6_default_selection (d : GroupsResponse) (s : ARState) :
    (d.available_groups = [] → (arLoadSuccess s d).selectedGroup = "") ∧
    (∀ g gs, d.available_groups = g :: gs →
      (arLoadSuccess s d).selectedGroup = g) := by
  constructor
  · intro h
    simp [arLoadSuccess, h]
  · intro g gs h
    by_cases hg : g = ""
    · simp [arLoadSuccess, h, hg]
    · simp [arLoadSuccess, h, hg]

/-- Witness for `C6_default_selection` on a two-element and an empty
groups response. -/
theorem C6_default_selection_witness :
    (arLoadSuccess arInit ⟨["alpha", "beta"], []⟩).selectedGroup = "alpha" ∧
    (arLoadSuccess arInit ⟨[], []⟩).selectedGroup = "" :=
  ⟨(C6_default_selection ⟨["alpha", "beta"], []⟩ arInit).2 "alpha" ["beta"] rfl,
    (C6_default_selection ⟨[], []⟩ arInit).1 rfl⟩

/-- C7: when the submit call fails, the state keeps the selected group,
permission, justification and groups lists unchanged, clears only the
`submitting` flag, sets the prefixed error message, renders the editable
form again, and (when a group is selected) the Submit button is enabled
for an immediate re-attempt. -/
theorem C7_submit_failure_preserves_input (s : ARState) (msg : String)
    (hl : s.loading = false) (hs : s.success = none) :
    (arSubmitFailure s msg).selectedGroup = s.selectedGroup ∧
    (arSubmitFailure s msg).permission = s.permission ∧
    (arSubmitFailure s msg).justification = s.justification ∧
    (arSubmitFailure s msg).availableGroups = s.availableGroups ∧
    (arSubmitFailure s msg).myGroups = s.myGroups ∧
    (arSubmitFailure s msg).submitting = false ∧
    (arSubmitFailure s msg).error =
      some ("Failed to submit request: " ++ msg) ∧
    arBranch (arSubmitFailure s msg) = .formView ∧
    (s.selectedGroup ≠ "" → arSubmitDisabled (arSubmitFailure s msg) = false) := by
  refine ⟨rfl, rfl, rfl, rfl, rfl, rfl, rfl, ?_, ?_⟩
  · simp [arBranch, arSubmitFailure, hl, hs, jsTruthyOptStr]
  · intro hsel
    simp [arSubmitDisabled, arSubmitFailure, jsTruthyStr, hsel]

/-- Witness for `C7_submit_failure_preserves_input` on the state reached
by a successful load followed by a failed submit. -/
theorem C7_submit_failure_witness :
    (arSubmitFailure (arSubmitStart (arLoadSuccess arInit ⟨["alpha"], []⟩))
        "boom").selectedGroup = "alpha" ∧
    (arSubmitFailure (arSubmitStart (arLoadSuccess arInit ⟨["alpha"], []⟩))
        "boom").error = some "Failed to submit request: boom" := by
  have h := C7_submit_failure_preserves_input
    (arSubmitStart (arLoadSuccess arInit ⟨["alpha"], []⟩)) "boom" rfl rfl
  exact ⟨h.1, h.2.2.2.2.2.2.1⟩

/-- C8: observing the simulated timeline at any instant `u`, the "copied"
acknowledgment produced by a copy success at instant `t` (from a state
with no pending timeouts) is shown exactly while `u < t + 2000`: it
reverts at `t + 2000` and not before. -/
theorem C8_copied_reverts_at_2000 (t u : Nat) :
    (observeAt u (copySuccessAt t copiedTimelineInit)).copied = true ↔
      u < t + 2000 := by
  by_cases hle : t + 2000 ≤ u
  · simp only [observeAt, copySuccessAt, copiedTimelineInit]
    simp [hle]
  · simp only [observeAt, copySuccessAt, copiedTimelineInit]
    simp [hle]
    omega

/-- C9: when a group is selected, the submit call's body omits the
`justification` field exactly when the entered justification is the empty
string, and otherwise carries the entered text verbatim. -/
theorem C9_justification_omitted_iff_empty (s : ARState)
    (hsel : s.selectedGroup ≠ "") :
    (s.justification = "" →
      handleSubmitStep s = .call ⟨s.selectedGroup, s.permission, none⟩) ∧
    (s.justification ≠ "" →
      handleSubmitStep s =
        .call ⟨s.selectedGroup, s.permission, some s.justification⟩) := by
  constructor
  · intro hj
    simp [handleSubmitStep, hsel, hj]
  · intro hj
    simp [handleSubmitStep, hsel, hj]

/-- Witness for `C9_justification_omitted_iff_empty` on the state reached
by a successful load, where the justification is still empty. -/
theorem C9_justification_witness :
    (arLoadSuccess arInit ⟨["groupA"], []⟩).selectedGroup ≠ "" ∧
    handleSubmitStep (arLoadSuccess arInit ⟨["groupA"], []⟩) =
      .call ⟨(arLoadSuccess arInit ⟨["groupA"], []⟩).selectedGroup,
             (arLoadSuccess arInit ⟨["groupA"], []⟩).permission, none⟩ :=
  ⟨by decide,
    (C9_justification_omitted_iff_empty
      (arLoadSuccess arInit ⟨["groupA"], []⟩) (by decide)).1 rfl⟩

/-- C10: the modal opens with permission `read_only`, any event sequence
that never touches the permission radio buttons leaves it `read_only`,
and a submit call issued from such a state requests `read_only` access. -/
theorem C10_permission_defaults_read_only (es : List AREvent)
    (h : ∀ e ∈ es, e.isSetPermission = false) :
    arInit.permission = .read_only ∧
    (arRun arInit es).permission = .read_only ∧
    (∀ req, handleSubmitStep (arRun arInit es) = .call req →
      req.permission = .read_only) := by
  have hperm : (arRun arInit es).permission = .read_only :=
    arRun_permission_invariant es arInit h
  refine ⟨rfl, hperm, ?_⟩
  intro req hreq
  rw [handleSubmitStep_call_permission (arRun arInit es) req hreq, hperm]

/-- Witness for `C10_permission_defaults_read_only` on a load-then-submit
event sequence without any permission change. -/
theorem C10_permission_witness :
    (arRun arInit [.loadSuccess ⟨["alpha"], []⟩, .submitStart]).permission =
      Permission.read_only :=
  (C10_permission_defaults_read_only
    [.loadSuccess ⟨["alpha"], []⟩, .submitStart] (by decide)).2.1

end Berdl
